import Mathlib

/-!
# Book catalogue server (`src/main.js`)

A shallow embedding of the three route handlers of `src/main.js`
(`/search/:letter`, `/book/:id`, `/review`) and of the pieces they use.

Modelling conventions.

* A handler is a function from its request and from the answers of the outside
  world (query executor, template engine, outbound fetch) to a `Run`: how the
  handler completed, the pool state afterwards, and the ordered trace of the
  effects it performed.
* `await` is sequential composition; a rejected promise or a thrown exception is
  the `Except.error` branch.  A `try / catch / finally` block is a `match` on the
  `Except` value of the guarded block followed by the `finally` effects.
* JavaScript strings are `String`s; `undefined` is `none`.
-/

namespace BookApp

/-! ## Values -/

/-- A thrown value, represented by what `JSON.stringify` makes of it. -/
abbrev Err := String

/-- The `TypeError` raised by a property access on `undefined`
(`JSON.stringify` of an `Error` object is `{}`; braces written as escapes). -/
def typeError : Err := "\x7b\x7d"

/-- Scalar values that travel through the handlers untouched. -/
inductive JVal where
  | null
  | num (q : ℚ)
  | str (s : String)
  deriving DecidableEq, Repr

/-- An object literal: its keys in order, each with its value. -/
abbrev JObject := List (String × JVal)

/-- `s.replace(/c/g, rep)` for a one-character pattern `c` and a replacement text
without `$` patterns: every occurrence of `c` becomes `rep`, all other
characters stay. -/
def jsReplaceAll (c : Char) (rep : String) (s : String) : String :=
  String.mk (s.data.flatMap fun x => if x = c then rep.data else [x])

/-! ## Responses, effects, runs -/

/-- What `res.send`, `res.json` or `res.render` put in the response. -/
inductive Body where
  | text (s : String)
  | json (o : JObject)
  deriving DecidableEq, Repr

/-- The response as left by `res.status`, `res.type` and the sending call. -/
structure Response where
  status : Nat
  contentType : String
  body : Body
  deriving DecidableEq, Repr

/-- The outbound request built by `withQuery(URL, params)`. -/
structure Outbound where
  url : String
  params : List (String × String)
  deriving DecidableEq, Repr

/-- A bound query parameter. -/
inductive Param where
  | str (s : String)
  | num (n : Nat)
  deriving DecidableEq, Repr

/-- A row of the page query: `select book_id, title`. -/
structure ListRow where
  book_id : JVal
  title : String
  deriving DecidableEq, Repr

/-- Modelled from the spec: the row type of table `book2018` (its schema is not
in the sources); the columns of section 3 of the specification, `authors` and
`genres` being pipe-delimited strings, and whatever further columns `select *`
returns collected in `other`. -/
structure Book where
  book_id : JVal
  title : String
  authors : String
  genres : String
  description : JVal
  pages : JVal
  rating : JVal
  rating_count : JVal
  other : JObject
  deriving DecidableEq, Repr

/-- The data object given to `res.render('list', ...)`. -/
structure ListModel where
  letter : String
  hasContent : Bool
  books : Option (List ListRow)
  deriving DecidableEq, Repr

/-- The data object given to `res.render('book', ...)`. -/
structure BookModel where
  hasContent : Bool
  book : Option Book
  authors : Option String
  genres : Option String
  deriving DecidableEq, Repr

/-- The data object given to `res.render('review', ...)`. -/
structure ReviewModel where
  hasContent : Bool
  reviews : List JObject
  deriving DecidableEq, Repr

/-- A call of `res.render`: the view name is the constructor. -/
inductive View where
  | list (m : ListModel)
  | book (m : BookModel)
  | review (m : ReviewModel)
  deriving DecidableEq, Repr

/-- The effects a handler performs, in the order it performs them. -/
inductive Event where
  | acquire
  | release
  | query (sql : String) (params : List Param)
  | render (v : View)
  | fetch (r : Outbound)
  deriving DecidableEq, Repr

/-- How a handler run ends. -/
inductive Completion where
  /-- A response was sent. -/
  | responded (r : Response)
  /-- An exception left the handler: its promise is rejected and the handler has
  sent nothing. -/
  | threw (e : Err)
  /-- The handler is still waiting for `pool.getConnection()`. -/
  | waiting
  deriving DecidableEq, Repr

/-- The pool as explicit state: the number of connections checked out. -/
structure Pool where
  checkedOut : Nat
  deriving DecidableEq, Repr

/-- A handler run. -/
structure Run where
  completion : Completion
  pool : Pool
  trace : List Event
  deriving DecidableEq, Repr

/-! ## The outside world -/

/-- The query executor behind `conn.query`, one field per statement of the
source; each may reject. -/
structure Conn where
  /-- The answer to `SQL_TOTAL_BOOKS_BY_LETTER`: rows with a `total` column. -/
  totalBooksByLetter : String → Except Err (List Nat)
  /-- The answer to `SQL_GET_BOOKS_BY_LETTER` for pattern, limit, offset. -/
  getBooksByLetter : String → Nat → Nat → Except Err (List ListRow)
  /-- The answer to `SQL_GET_BOOK_BY_ID`. -/
  getBookById : String → Except Err (List Book)

/-- Everything a handler run depends on besides its request. -/
structure World where
  conn : Conn
  /-- The template engine: markup, or a thrown failure. -/
  render : View → Except Err String
  /-- For `fetch(endpoint)` then `result.json()` then `data.results`: a thrown
  failure, a body without `results` (`none`), or the `results` array. -/
  fetchResults : Outbound → Except Err (Option (List JObject))
  /-- For `String.prototype.toUpperCase`. -/
  toUpperCase : String → String
  /-- The environment variable `API_KEY`. -/
  API_KEY : String

/-! ## Constants of the source -/

def SQL_LIMIT : Nat := 10

def SQL_GET_BOOKS_BY_LETTER : String :=
  "select book_id, title from book2018 where title like ? order by title limit ? offset ?"

def SQL_TOTAL_BOOKS_BY_LETTER : String :=
  "select count(*) as total from book2018 where title like ?"

def SQL_GET_BOOK_BY_ID : String := "select * from book2018 where book_id = ?"

/-- The `connectionLimit` of `mysql.createPool`. -/
def connectionLimit : Nat := 4

/-- The `URL` constant of the review handler. -/
def REVIEW_URL : String := "https://api.nytimes.com/svc/books/v3/reviews.json"

/-! ## The pool -/

/-- For `pool.getConnection()`: a connection is handed out while fewer than
`connectionLimit` are checked out; otherwise the caller stays queued. -/
def getConnection (p : Pool) : Option Pool :=
  if p.checkedOut < connectionLimit then some { checkedOut := p.checkedOut + 1 } else none

/-- For `conn.release()`. -/
def release (p : Pool) : Pool := { checkedOut := p.checkedOut - 1 }

/-! ## `GET /review` -/

/-- The query of a `/review` request: `req.query.title`, `req.query.author`. -/
structure ReviewRequest where
  title : Option String
  author : Option String
  deriving DecidableEq, Repr

/-- Line 151, `req.query.author.replace(/,/g, ' and') || ''`: the method call on
an absent `author` throws; otherwise every comma is replaced by `" and"`, and an
empty result is replaced by the empty string. -/
def reviewAuthor (author : Option String) : Except Err String :=
  match author with
  | none => .error typeError
  | some a =>
    let r := jsReplaceAll ',' " and" a
    .ok (if r = "" then "" else r)

/-- Lines 157-161: the endpoint built by `withQuery`. -/
def reviewEndpoint (w : World) (title author : String) : Outbound :=
  { url := REVIEW_URL
    params := [("title", title), ("author", author), ("api-key", w.API_KEY)] }

/-- Lines 164-181, the guarded block of the review handler with its `catch`:
the trace of the effects and the response. -/
def reviewGuarded (w : World) (endpoint : Outbound) : List Event × Response :=
  let sent500 (e : Err) : Response :=
    { status := 500, contentType := "text/html", body := .text e }
  match w.fetchResults endpoint with
  | .error e => ([.fetch endpoint], sent500 e)
  | .ok none => ([.fetch endpoint], sent500 typeError)
  | .ok (some reviews) =>
    let v := View.review { hasContent := reviews.length != 0, reviews := reviews }
    match w.render v with
    | .error e => ([.fetch endpoint, .render v], sent500 e)
    | .ok markup =>
      ([.fetch endpoint, .render v],
        { status := 200, contentType := "text/html", body := .text markup })

/-- The handler of `app.get('/review')`, lines 149-182.  Lines 150-161 run before
the `try`, so what they throw leaves the handler. -/
def reviewHandler (w : World) (p : Pool) (req : ReviewRequest) : Run :=
  let title := req.title.getD ""
  match reviewAuthor req.author with
  | .error e => { completion := .threw e, pool := p, trace := [] }
  | .ok author =>
    let endpoint := reviewEndpoint w title author
    let (tr, resp) := reviewGuarded w endpoint
    { completion := .responded resp, pool := p, trace := tr }

/-- The outbound request of a run: the argument of its first `fetch`. -/
def Run.outbound (r : Run) : Option Outbound :=
  r.trace.findSome? fun e => match e with
    | .fetch o => some o
    | _ => none

/-- The value of a parameter of an outbound request. -/
def Outbound.param (o : Outbound) (key : String) : Option String :=
  (o.params.find? fun kv => kv.1 == key).map Prod.snd

/-! ## `GET /search/:letter` -/

/-- The parameters of a `/search/:letter` request: `req.params.letter` and
`req.query.offset` (absent: `none`). -/
structure SearchRequest where
  letter : String
  offset : Option Nat
  deriving DecidableEq, Repr

/-- Line 63: `Math.floor((numOfBooks / SQL_LIMIT) - 0.01) + 1`, over exact
rationals. -/
def maxPage (numOfBooks : Nat) : ℤ :=
  ⌊(numOfBooks : ℚ) / (SQL_LIMIT : ℚ) - 1 / 100⌋ + 1

/-- Lines 70-76: `res.status(200)`, `res.type('text/html')`, `res.render('list',
...)`, after the effects `tr`. -/
def searchRender (w : World) (tr : List Event) (letter : String) (numOfBooks : Nat)
    (books : Option (List ListRow)) : List Event × Except Err Response :=
  let v := View.list
    { letter := w.toUpperCase letter, hasContent := numOfBooks != 0, books := books }
  match w.render v with
  | .error e => (tr ++ [.render v], .error e)
  | .ok markup =>
    (tr ++ [.render v],
      .ok { status := 200, contentType := "text/html", body := .text markup })

/-- Lines 57-76, the `try` block of the search handler: its effects, and its
response or what it threw.  `books` is declared without a value (line 60) and
assigned only when `numOfBooks > 0`; `maxPage` (line 63) is computed and not
used. -/
def searchGuarded (w : World) (letter : String) (offset : Nat) :
    List Event × Except Err Response :=
  let pattern := letter ++ "%"
  let q1 := Event.query SQL_TOTAL_BOOKS_BY_LETTER [.str pattern]
  match w.conn.totalBooksByLetter pattern with
  | .error e => ([q1], .error e)
  | .ok result =>
    match result[0]? with
    | none => ([q1], .error typeError)
    | some numOfBooks =>
      if numOfBooks > 0 then
        let q2 := Event.query SQL_GET_BOOKS_BY_LETTER [.str pattern, .num SQL_LIMIT, .num offset]
        match w.conn.getBooksByLetter pattern SQL_LIMIT offset with
        | .error e => ([q1, q2], .error e)
        | .ok books => searchRender w [q1, q2] letter numOfBooks (some books)
      else
        searchRender w [q1] letter numOfBooks none

/-- The handler of `app.get('/search/:letter')`, lines 50-84. -/
def searchHandler (w : World) (p : Pool) (req : SearchRequest) : Run :=
  let letter := req.letter
  let offset := req.offset.getD 0
  match getConnection p with
  | none => { completion := .waiting, pool := p, trace := [] }
  | some p1 =>
    let (tr, r) := searchGuarded w letter offset
    let resp : Response :=
      match r with
      | .ok resp => resp
      | .error e => { status := 500, contentType := "text/html", body := .text e }
    { completion := .responded resp, pool := release p1
      trace := [Event.acquire] ++ tr ++ [Event.release] }

/-! ## `GET /book/:id` -/

/-- The outcome of `res.format`: which of its keys the request accepts. -/
inductive Negotiated where
  | html
  | json
  | other
  deriving DecidableEq, Repr

/-- The parameters of a `/book/:id` request. -/
structure BookRequest where
  id : String
  accepts : Negotiated
  deriving DecidableEq, Repr

/-- Lines 117-126: the object given to `res.json` for a found book. -/
def bookJson (b : Book) : JObject :=
  [ ("bookId", b.book_id),
    ("title", .str b.title),
    ("authors", .str b.authors),
    ("summary", b.description),
    ("pages", b.pages),
    ("rating", b.rating),
    ("ratingCount", b.rating_count),
    ("genre", .str b.genres) ]

/-- Lines 129-131: the object given to `res.json` when no book is found. -/
def notFoundJson : JObject :=
  [ ("404 Not Found", .str "Sorry! No info found for the requested book id.") ]

/-- Lines 93-138, the `try` block of the book handler: its effects, and its
response or what it threw.  `book.length > 0` is the case `b :: _`, where
`book[0]` is `b`. -/
def bookGuarded (w : World) (req : BookRequest) : List Event × Except Err Response :=
  let q := Event.query SQL_GET_BOOK_BY_ID [.str req.id]
  match w.conn.getBookById req.id with
  | .error e => ([q], .error e)
  | .ok book =>
    let authors : Option String :=
      match book with
      | b :: _ => some (jsReplaceAll '|' ", " b.authors)
      | [] => none
    let genres : Option String :=
      match book with
      | b :: _ => some (jsReplaceAll '|' ", " b.genres)
      | [] => none
    match req.accepts with
    | .html =>
      let v := View.book
        { hasContent := book.length != 0, book := book[0]?, authors := authors, genres := genres }
      match w.render v with
      | .error e => ([q, .render v], .error e)
      | .ok markup =>
        ([q, .render v], .ok { status := 200, contentType := "text/html", body := .text markup })
    | .json =>
      match book with
      | b :: _ =>
        ([q], .ok { status := 200, contentType := "application/json", body := .json (bookJson b) })
      | [] =>
        ([q], .ok { status := 200, contentType := "application/json", body := .json notFoundJson })
    | .other =>
      ([q], .ok { status := 200, contentType := "text/plain"
                  body := .text "Sorry! The requested data type is not supported by the endpoint." })

/-- The handler of `app.get('/book/:id')`, lines 87-146. -/
def bookHandler (w : World) (p : Pool) (req : BookRequest) : Run :=
  match getConnection p with
  | none => { completion := .waiting, pool := p, trace := [] }
  | some p1 =>
    let (tr, r) := bookGuarded w req
    let resp : Response :=
      match r with
      | .ok resp => resp
      | .error e => { status := 500, contentType := "text/html", body := .text ("Error: " ++ e) }
    { completion := .responded resp, pool := release p1
      trace := [Event.acquire] ++ tr ++ [Event.release] }

/-! ## Reading a run -/

/-- The list view-model of a run: the argument of its `res.render('list', ...)`. -/
def Run.listModel (r : Run) : Option ListModel :=
  r.trace.findSome? fun e => match e with
    | .render (.list m) => some m
    | _ => none

/-- The book view-model of a run: the argument of its `res.render('book', ...)`. -/
def Run.bookModel (r : Run) : Option BookModel :=
  r.trace.findSome? fun e => match e with
    | .render (.book m) => some m
    | _ => none

/-- The response of a run, when one was sent. -/
def Run.response (r : Run) : Option Response :=
  match r.completion with
  | .responded resp => some resp
  | _ => none

/-- Whether an effect is a query with the given statement. -/
def Event.isQuery (sql : String) : Event → Bool
  | .query s _ => s == sql
  | _ => false

/-- Whether an effect concerns the pool. -/
def Event.isPool : Event → Bool
  | .acquire => true
  | .release => true
  | _ => false

/-! ## A query executor answering from a table -/

/-- The database content together with what the engine decides: when a title is
`like` a pattern, how titles are ordered, and when a row has the requested id. -/
structure Database where
  table : List Book
  like : String → String → Bool
  titleLe : String → String → Bool
  idEq : String → JVal → Bool

/-- The rows whose title is like the pattern. -/
def Database.matching (db : Database) (pattern : String) : List Book :=
  db.table.filter fun b => db.like pattern b.title

/-- The page of the matching rows: ordered by title, `offset` of them skipped, at
most `limit` kept, columns `book_id` and `title`. -/
def Database.page (db : Database) (pattern : String) (limit offset : Nat) : List ListRow :=
  ((((db.matching pattern).insertionSort
      fun a b => db.titleLe a.title b.title = true).drop offset).take limit).map
    fun b => { book_id := b.book_id, title := b.title }

/-- The executor that answers the three statements on a database: the count of
the matching rows, the page of the matching rows, the rows with the id. -/
def Database.conn (db : Database) : Conn where
  totalBooksByLetter := fun pattern => .ok [(db.matching pattern).length]
  getBooksByLetter := fun pattern limit offset => .ok (db.page pattern limit offset)
  getBookById := fun id => .ok (db.table.filter fun b => db.idEq id b.book_id)

/-- The count the handler reads: `result[0].total` on this database. -/
def Database.totalCount (db : Database) (letter : String) : Nat :=
  (db.matching (letter ++ "%")).length

/-! ## Splitting and joining, as the specification words the formatting -/

/-- The items of a text separated by `c`. -/
def splitItems (c : Char) : List Char → List (List Char)
  | [] => [[]]
  | x :: xs =>
    if x = c then [] :: splitItems c xs
    else
      match splitItems c xs with
      | [] => [[x]]
      | item :: items => (x :: item) :: items

/-- The items written one after the other with `sep` between them. -/
def joinItems (sep : List Char) : List (List Char) → List Char
  | [] => []
  | [item] => item
  | item :: next :: items => item ++ sep ++ joinItems sep (next :: items)

/-- The text `s` split at `c` and joined again with `sep`. -/
def splitJoin (c : Char) (sep : String) (s : String) : String :=
  String.mk (joinItems sep.data (splitItems c s.data))

/-- The world of a handler whose query executor answers from the database. -/
def World.onDatabase (w : World) (db : Database) : World :=
  { w with conn := db.conn }

/-- Whether the books of a list view-model are absent or empty. -/
def ListModel.noBooks (m : ListModel) : Bool :=
  match m.books with
  | none => true
  | some books => books.isEmpty

/-! ## A concrete database and world -/

/-- The row of the specification's example. -/
def fooBook : Book :=
  { book_id := .num 42, title := "Foo", authors := "A|B", genres := "G1|G2",
    description := .str "d", pages := .num 100, rating := .num 4.2,
    rating_count := .num 10, other := [("image_url", .str "foo.png")] }

/-- A second row. -/
def fabBook : Book :=
  { book_id := .num 7, title := "Fab", authors := "C", genres := "G3",
    description := .null, pages := .num 12, rating := .num 3,
    rating_count := .num 2, other := [] }

/-- The order of two texts by character code. -/
def binaryLe : List Char → List Char → Bool
  | [], _ => true
  | _ :: _, [] => false
  | a :: as, b :: bs =>
    if a.toNat < b.toNat then true
    else if b.toNat < a.toNat then false
    else binaryLe as bs

/-- Two rows under a binary collation: a title is like `x%` when it starts with
`x`, titles are ordered by character code, ids are compared as texts. -/
def sampleDatabase : Database :=
  { table := [fooBook, fabBook]
    like := fun pattern title => pattern.data.dropLast.isPrefixOf title.data
    titleLe := fun a b => binaryLe a.data b.data
    idEq := fun id v => decide (v = .str id) }

/-- A world on `sampleDatabase` in which rendering and fetching succeed. -/
def sampleWorld : World :=
  { conn := sampleDatabase.conn
    render := fun _ => .ok "<html></html>"
    fetchResults := fun _ => .ok (some [])
    toUpperCase := String.toUpper
    API_KEY := "key" }

/-- A world whose get-by-id query answers the given rows. -/
def worldWithBook (rows : List Book) : World :=
  { sampleWorld with conn := { sampleDatabase.conn with getBookById := fun _ => .ok rows } }

/-- A world in which every query and the rendering fail. -/
def failingWorld : World :=
  { sampleWorld with
    conn := { totalBooksByLetter := fun _ => .error "db"
              getBooksByLetter := fun _ _ _ => .error "db"
              getBookById := fun _ => .error "db" }
    render := fun _ => .error "view" }

/-- The pool discipline of a finished run that started from pool state `before`:
a response was sent, the first effect is the acquisition, the last one the
release, each occurs exactly once, and the pool is back in state `before`. -/
def Run.releasedOnce (r : Run) (before : Pool) : Prop :=
  r.response.isSome = true
  ∧ r.trace.head? = some Event.acquire
  ∧ r.trace.getLast? = some Event.release
  ∧ r.trace.count Event.acquire = 1
  ∧ r.trace.count Event.release = 1
  ∧ r.pool = before

/-! ## The pool and the guarded blocks -/

theorem getConnection_of_lt (p : Pool) (h : p.checkedOut < connectionLimit) :
    getConnection p = some { checkedOut := p.checkedOut + 1 } := by
  simp [getConnection, h]

theorem release_getConnection (p : Pool) :
    release { checkedOut := p.checkedOut + 1 } = p := by
  cases p; simp [release]

theorem searchRender_isPool (w : World) (tr : List Event) (letter : String) (n : Nat)
    (books : Option (List ListRow)) (h : ∀ e ∈ tr, e.isPool = false) :
    ∀ e ∈ (searchRender w tr letter n books).1, e.isPool = false := by
  intro e he
  simp only [searchRender] at he
  have he' : e ∈ tr ++ [Event.render (View.list
      { letter := w.toUpperCase letter, hasContent := n != 0, books := books })] := by
    split at he <;> exact he
  rcases List.mem_append.1 he' with h1 | h1
  · exact h e h1
  · rw [List.mem_singleton.1 h1]; rfl

theorem searchGuarded_isPool (w : World) (letter : String) (offset : Nat) :
    ∀ e ∈ (searchGuarded w letter offset).1, e.isPool = false := by
  simp only [searchGuarded]
  repeat' split
  all_goals first
    | exact searchRender_isPool _ _ _ _ _ (by simp [Event.isPool])
    | simp [Event.isPool]

theorem bookGuarded_isPool (w : World) (req : BookRequest) :
    ∀ e ∈ (bookGuarded w req).1, e.isPool = false := by
  simp only [bookGuarded]
  repeat' split
  all_goals simp [Event.isPool]

/-- A trace that brackets pool-free effects between one acquisition and one
release. -/
theorem bracket_releasedOnce (tr : List Event) (h : ∀ e ∈ tr, e.isPool = false) :
    ([Event.acquire] ++ tr ++ [Event.release]).head? = some Event.acquire
    ∧ ([Event.acquire] ++ tr ++ [Event.release]).getLast? = some Event.release
    ∧ ([Event.acquire] ++ tr ++ [Event.release]).count Event.acquire = 1
    ∧ ([Event.acquire] ++ tr ++ [Event.release]).count Event.release = 1 := by
  have ha : tr.count Event.acquire = 0 := by
    rw [List.count_eq_zero]; intro hm; simpa [Event.isPool] using h _ hm
  have hr : tr.count Event.release = 0 := by
    rw [List.count_eq_zero]; intro hm; simpa [Event.isPool] using h _ hm
  refine ⟨by simp, by rw [List.getLast?_append]; simp, ?_, ?_⟩
  · simp [List.count_append, List.count_cons, ha]
  · simp [List.count_append, List.count_cons, hr]

theorem searchHandler_releasedOnce (w : World) (p : Pool) (req : SearchRequest)
    (hp : p.checkedOut < connectionLimit) : (searchHandler w p req).releasedOnce p := by
  have hb := bracket_releasedOnce _ (searchGuarded_isPool w req.letter (req.offset.getD 0))
  unfold Run.releasedOnce
  simp only [searchHandler, getConnection_of_lt p hp, release_getConnection]
  exact ⟨rfl, hb.1, hb.2.1, hb.2.2.1, hb.2.2.2, trivial⟩

theorem bookHandler_releasedOnce (w : World) (p : Pool) (req : BookRequest)
    (hp : p.checkedOut < connectionLimit) : (bookHandler w p req).releasedOnce p := by
  have hb := bracket_releasedOnce _ (bookGuarded_isPool w req)
  unfold Run.releasedOnce
  simp only [bookHandler, getConnection_of_lt p hp, release_getConnection]
  exact ⟨rfl, hb.1, hb.2.1, hb.2.2.1, hb.2.2.2, trivial⟩

/-! ## Text replacement -/

theorem not_mem_flatMap_replace (c : Char) (rep : List Char) (hc : c ∉ rep) (l : List Char) :
    c ∉ l.flatMap (fun x => if x = c then rep else [x]) := by
  induction l with
  | nil => simp
  | cons x xs ih =>
    simp only [List.flatMap_cons, List.mem_append, not_or]
    refine ⟨?_, ih⟩
    by_cases h : x = c
    · simpa [h] using hc
    · simp [h]; exact fun h2 => h h2.symm

theorem splitItems_ne_nil (c : Char) (l : List Char) : splitItems c l ≠ [] := by
  induction l with
  | nil => simp [splitItems]
  | cons x xs ih =>
    unfold splitItems
    split
    · simp
    · split <;> simp

theorem joinItems_cons (sep item : List Char) (items : List (List Char)) (h : items ≠ []) :
    joinItems sep (item :: items) = item ++ sep ++ joinItems sep items := by
  cases items with
  | nil => exact absurd rfl h
  | cons a b => rfl

theorem joinItems_splitItems (c : Char) (sep : List Char) (l : List Char) :
    joinItems sep (splitItems c l) = l.flatMap (fun x => if x = c then sep else [x]) := by
  induction l with
  | nil => simp [splitItems, joinItems]
  | cons x xs ih =>
    unfold splitItems
    by_cases h : x = c
    · simp only [h, if_true, List.flatMap_cons]
      rw [joinItems_cons _ _ _ (splitItems_ne_nil c xs), ih]
      simp
    · simp only [h, if_false, List.flatMap_cons]
      rw [← ih]
      cases hs : splitItems c xs with
      | nil => exact absurd hs (splitItems_ne_nil c xs)
      | cons item items =>
        cases items with
        | nil => simp [joinItems]
        | cons a b => simp [joinItems]

theorem jsReplaceAll_eq_splitJoin (c : Char) (sep s : String) :
    jsReplaceAll c sep s = splitJoin c sep s := by
  simp [jsReplaceAll, splitJoin, joinItems_splitItems]

theorem pipe_not_mem_jsReplaceAll (s : String) :
    '|' ∉ (jsReplaceAll '|' ", " s).data := by
  unfold jsReplaceAll
  exact not_mem_flatMap_replace '|' ", ".data (by decide) s.data

/-! ## `GET /review` -/

theorem reviewAuthor_some (a : String) :
    reviewAuthor (some a) = .ok (jsReplaceAll ',' " and" a) := by
  unfold reviewAuthor
  by_cases h : jsReplaceAll ',' " and" a = ""
  · simp [h]
  · simp [h]

theorem reviewGuarded_outbound (w : World) (o : Outbound) :
    ∃ rest resp, reviewGuarded w o = (Event.fetch o :: rest, resp) := by
  unfold reviewGuarded
  cases hf : w.fetchResults o with
  | error e => exact ⟨_, _, rfl⟩
  | ok r =>
    cases r with
    | none => exact ⟨_, _, rfl⟩
    | some reviews =>
      simp only
      cases hr : w.render (View.review { hasContent := reviews.length != 0, reviews := reviews }) with
      | error e => exact ⟨_, _, rfl⟩
      | ok m => exact ⟨_, _, rfl⟩

/-- C1 as written fails: for the author `Smith,Jones` the author parameter of the
outbound request is `Smith andJones`, not the input with every comma replaced by
`" and "`, which is `Smith and Jones`. -/
theorem review_author_not_spaced_and :
    ((reviewHandler sampleWorld { checkedOut := 0 }
        { title := some "T", author := some "Smith,Jones" }).outbound.bind
        fun o => o.param "author") = some "Smith andJones"
    ∧ ((reviewHandler sampleWorld { checkedOut := 0 }
        { title := some "T", author := some "Smith,Jones" }).outbound.bind
        fun o => o.param "author") ≠ some (jsReplaceAll ',' " and " "Smith,Jones")
    ∧ jsReplaceAll ',' " and " "Smith,Jones" = "Smith and Jones" := by
  decide

/-- C1 (amended): for every author query string, the author parameter of the
outbound request of the review handler is the input with every comma replaced
by `" and"` (space, `and`, no space after it); `Smith,Jones` gives
`Smith andJones`, and `Smith, Jones` gives `Smith and Jones`. -/
theorem review_author_commas_replaced (w : World) (p : Pool) (title : Option String)
    (a : String) :
    ((reviewHandler w p { title := title, author := some a }).outbound.bind
        fun o => o.param "author") = some (jsReplaceAll ',' " and" a)
    ∧ jsReplaceAll ',' " and" "Smith,Jones" = "Smith andJones"
    ∧ jsReplaceAll ',' " and" "Smith, Jones" = "Smith and Jones" := by
  refine ⟨?_, by decide, by decide⟩
  unfold reviewHandler
  rw [reviewAuthor_some]
  obtain ⟨rest, resp, h⟩ := reviewGuarded_outbound w
    (reviewEndpoint w (title.getD "") (jsReplaceAll ',' " and" a))
  simp only [h]
  simp [Run.outbound, List.findSome?, reviewEndpoint, Outbound.param, List.find?]

/-- C2 (the code at the failing input): for every request without an author, the
`TypeError` of line 151 leaves the review handler, which sends no response and
performs no effect; the `catch` of lines 177-181 is never reached. -/
theorem review_absent_author_escapes (w : World) (p : Pool) (title : Option String) :
    reviewHandler w p { title := title, author := none }
      = { completion := .threw typeError, pool := p, trace := [] }
    ∧ (reviewHandler w p { title := title, author := none }).response = none :=
  ⟨rfl, rfl⟩

/-! ## `GET /book/:id` -/

/-- C3: when the get-by-id query returns a row `b` (first of the rows returned),
the application/json response of the book handler has as body exactly the
object with keys bookId, title, authors, summary, pages, rating, ratingCount,
genre, holding the row's book_id, title, authors (raw), description, pages,
rating, rating_count, genres (raw), and no other field; the example row of the
specification gives the example object. -/
theorem book_json_body (w : World) (p : Pool) (id : String) (b : Book) (rest : List Book)
    (hq : w.conn.getBookById id = .ok (b :: rest)) (hp : p.checkedOut < connectionLimit) :
    (bookHandler w p { id := id, accepts := .json }).response
      = some { status := 200, contentType := "application/json"
               body := .json
                 [ ("bookId", b.book_id), ("title", .str b.title), ("authors", .str b.authors),
                   ("summary", b.description), ("pages", b.pages), ("rating", b.rating),
                   ("ratingCount", b.rating_count), ("genre", .str b.genres) ] }
    ∧ bookJson fooBook
      = [ ("bookId", .num 42), ("title", .str "Foo"), ("authors", .str "A|B"),
          ("summary", .str "d"), ("pages", .num 100), ("rating", .num 4.2),
          ("ratingCount", .num 10), ("genre", .str "G1|G2") ] := by
  refine ⟨?_, rfl⟩
  simp [bookHandler, getConnection_of_lt p hp, bookGuarded, hq, Run.response, bookJson]

/-- C3 at the example row of the specification. -/
theorem book_json_body_witness :
    (worldWithBook [fooBook]).conn.getBookById "42" = .ok (fooBook :: [])
    ∧ (Pool.mk 0).checkedOut < connectionLimit
    ∧ (bookHandler (worldWithBook [fooBook]) { checkedOut := 0 }
        { id := "42", accepts := .json }).response
      = some { status := 200, contentType := "application/json"
               body := .json
                 [ ("bookId", .num 42), ("title", .str "Foo"), ("authors", .str "A|B"),
                   ("summary", .str "d"), ("pages", .num 100), ("rating", .num 4.2),
                   ("ratingCount", .num 10), ("genre", .str "G1|G2") ] } :=
  ⟨rfl, by decide,
    (book_json_body (worldWithBook [fooBook]) { checkedOut := 0 } "42" fooBook [] rfl
      (by decide)).1⟩

/-- C4: when the get-by-id query succeeds with no row, the application/json
response of the book handler has status 200 and as body exactly the object with
the single key `404 Not Found` and the fixed message. -/
theorem book_json_not_found (w : World) (p : Pool) (id : String)
    (hq : w.conn.getBookById id = .ok []) (hp : p.checkedOut < connectionLimit) :
    (bookHandler w p { id := id, accepts := .json }).response
      = some { status := 200, contentType := "application/json"
               body := .json
                 [ ("404 Not Found", .str "Sorry! No info found for the requested book id.") ] } := by
  simp [bookHandler, getConnection_of_lt p hp, bookGuarded, hq, Run.response, notFoundJson]

/-- C4 on the sample database, for an id no row has. -/
theorem book_json_not_found_witness :
    sampleWorld.conn.getBookById "nothing" = .ok []
    ∧ (Pool.mk 3).checkedOut < connectionLimit
    ∧ (bookHandler sampleWorld { checkedOut := 3 } { id := "nothing", accepts := .json }).response
      = some { status := 200, contentType := "application/json"
               body := .json
                 [ ("404 Not Found", .str "Sorry! No info found for the requested book id.") ] } :=
  ⟨rfl, by decide,
    book_json_not_found sampleWorld { checkedOut := 3 } "nothing" rfl (by decide)⟩

theorem bookHandler_html_model (w : World) (p : Pool) (id : String) (b : Book) (rest : List Book)
    (hq : w.conn.getBookById id = .ok (b :: rest)) (hp : p.checkedOut < connectionLimit) :
    (bookHandler w p { id := id, accepts := .html }).bookModel
      = some { hasContent := true, book := some b
               authors := some (jsReplaceAll '|' ", " b.authors)
               genres := some (jsReplaceAll '|' ", " b.genres) } := by
  simp only [bookHandler, getConnection_of_lt p hp, bookGuarded, hq]
  cases hr : w.render (View.book
      { hasContent := (b :: rest).length != 0, book := (b :: rest)[0]?
        authors := some (jsReplaceAll '|' ", " b.authors)
        genres := some (jsReplaceAll '|' ", " b.genres) }) <;>
    simp [Run.bookModel, List.findSome?]

/-- C5: for a found row `b`, the view-model given to the book view has as authors
and genres the row's authors and genres with every `|` replaced by `", "`; that
text is the `|`-separated items joined with `", "`, it contains no `|`, and
`A|B|C` becomes `A, B, C`. -/
theorem book_html_pipes_replaced (w : World) (p : Pool) (id : String) (b : Book)
    (rest : List Book)
    (hq : w.conn.getBookById id = .ok (b :: rest)) (hp : p.checkedOut < connectionLimit) :
    (bookHandler w p { id := id, accepts := .html }).bookModel
      = some { hasContent := true, book := some b
               authors := some (jsReplaceAll '|' ", " b.authors)
               genres := some (jsReplaceAll '|' ", " b.genres) }
    ∧ jsReplaceAll '|' ", " b.authors = splitJoin '|' ", " b.authors
    ∧ jsReplaceAll '|' ", " b.genres = splitJoin '|' ", " b.genres
    ∧ '|' ∉ (jsReplaceAll '|' ", " b.authors).data
    ∧ '|' ∉ (jsReplaceAll '|' ", " b.genres).data
    ∧ jsReplaceAll '|' ", " "A|B|C" = "A, B, C" :=
  ⟨bookHandler_html_model w p id b rest hq hp, jsReplaceAll_eq_splitJoin _ _ _,
    jsReplaceAll_eq_splitJoin _ _ _, pipe_not_mem_jsReplaceAll _, pipe_not_mem_jsReplaceAll _,
    by decide⟩

/-- C5 at the example row of the specification. -/
theorem book_html_pipes_replaced_witness :
    (worldWithBook [fooBook]).conn.getBookById "42" = .ok (fooBook :: [])
    ∧ (Pool.mk 0).checkedOut < connectionLimit
    ∧ (bookHandler (worldWithBook [fooBook]) { checkedOut := 0 }
        { id := "42", accepts := .html }).bookModel
      = some { hasContent := true, book := some fooBook
               authors := some "A, B", genres := some "G1, G2" } :=
  ⟨rfl, by decide,
    (book_html_pipes_replaced (worldWithBook [fooBook]) { checkedOut := 0 } "42" fooBook [] rfl
      (by decide)).1⟩

/-! ## `maxPage` -/

theorem maxPage_eq_div (n : Nat) (h : 0 < n) : maxPage n = ((n + 9) / 10 : ℕ) := by
  unfold maxPage SQL_LIMIT
  generalize hk : (n + 9) / 10 = k
  obtain ⟨j, rfl⟩ : ∃ j, k = j + 1 := ⟨k - 1, by omega⟩
  have ha : 10 * j < n := by omega
  have hb : n ≤ 10 * j + 10 := by omega
  have ha' : 10 * (j : ℚ) + 1 ≤ (n : ℚ) := by exact_mod_cast ha
  have hb' : (n : ℚ) ≤ 10 * (j : ℚ) + 10 := by exact_mod_cast hb
  rw [Nat.cast_add, Nat.cast_one]
  congr 1
  rw [Int.floor_eq_iff, Int.cast_natCast]
  push_cast
  constructor <;> linarith

theorem ceil_div_ten (n : Nat) : ⌈(n : ℚ) / 10⌉ = ((n + 9) / 10 : ℕ) := by
  rw [Int.ceil_eq_iff]
  generalize hk : (n + 9) / 10 = k
  have ha : n ≤ 10 * k := by omega
  have hb : 10 * k < n + 10 := by omega
  have ha' : (n : ℚ) ≤ 10 * (k : ℚ) := by exact_mod_cast ha
  have hb' : 10 * (k : ℚ) < (n : ℚ) + 10 := by exact_mod_cast hb
  rw [Int.cast_natCast]
  constructor <;> linarith

/-- C6: for every positive totalCount, `floor(totalCount/10 - 0.01) + 1` over
exact rationals equals `ceil(totalCount/10)`; 25 gives 3, 20 gives 2 and 1
gives 1. -/
theorem maxPage_eq_ceil (totalCount : Nat) (h : 0 < totalCount) :
    maxPage totalCount = ⌈(totalCount : ℚ) / 10⌉
    ∧ maxPage 25 = 3 ∧ maxPage 20 = 2 ∧ maxPage 1 = 1 := by
  refine ⟨?_, ?_, ?_, ?_⟩
  · rw [maxPage_eq_div totalCount h, ceil_div_ten]
  · rw [maxPage_eq_div 25 (by decide)]; rfl
  · rw [maxPage_eq_div 20 (by decide)]; rfl
  · rw [maxPage_eq_div 1 (by decide)]; rfl

/-- C6 at totalCount 25. -/
theorem maxPage_eq_ceil_witness :
    0 < 25 ∧ maxPage 25 = ⌈((25 : ℕ) : ℚ) / 10⌉ ∧ maxPage 25 = 3 :=
  ⟨by decide, (maxPage_eq_ceil 25 (by decide)).1, (maxPage_eq_ceil 25 (by decide)).2.1⟩

/-! ## `GET /search/:letter` -/

theorem Database.length_page (db : Database) (pattern : String) (limit offset : Nat) :
    (db.page pattern limit offset).length = min limit ((db.matching pattern).length - offset) := by
  simp [Database.page, List.length_take, List.length_drop, List.length_insertionSort]

/-- The run of the search handler on a database with matching rows. -/
theorem searchHandler_pos (w : World) (db : Database) (p : Pool) (req : SearchRequest)
    (hn : 0 < db.totalCount req.letter) (hp : p.checkedOut < connectionLimit) :
    (searchHandler (w.onDatabase db) p req).listModel
      = some { letter := w.toUpperCase req.letter, hasContent := true
               books := some (db.page (req.letter ++ "%") SQL_LIMIT (req.offset.getD 0)) }
    ∧ ∀ markup, w.render (View.list
          { letter := w.toUpperCase req.letter, hasContent := true
            books := some (db.page (req.letter ++ "%") SQL_LIMIT (req.offset.getD 0)) })
          = .ok markup →
        (searchHandler (w.onDatabase db) p req).response
          = some { status := 200, contentType := "text/html", body := .text markup } := by
  have hn' : 0 < (db.matching (req.letter ++ "%")).length := hn
  have hne : ((db.matching (req.letter ++ "%")).length != 0) = true := by
    simp; intro h; simp [h] at hn'
  simp only [searchHandler, getConnection_of_lt p hp, searchGuarded, World.onDatabase,
    Database.conn, List.getElem?_cons_zero, gt_iff_lt, hn', if_true, searchRender, hne]
  cases hr : w.render (View.list
      { letter := w.toUpperCase req.letter, hasContent := true
        books := some (db.page (req.letter ++ "%") SQL_LIMIT (req.offset.getD 0)) }) <;>
    simp [Run.listModel, Run.response, List.findSome?]

/-- The trace of the search handler when the count is zero. -/
theorem searchHandler_zero (w : World) (p : Pool) (req : SearchRequest) (rest : List Nat)
    (hq : w.conn.totalBooksByLetter (req.letter ++ "%") = .ok (0 :: rest))
    (hp : p.checkedOut < connectionLimit) :
    (searchHandler w p req).trace
      = [ Event.acquire,
          Event.query SQL_TOTAL_BOOKS_BY_LETTER [.str (req.letter ++ "%")],
          Event.render (View.list
            { letter := w.toUpperCase req.letter, hasContent := false, books := none }),
          Event.release ] := by
  simp only [searchHandler, getConnection_of_lt p hp, searchGuarded, hq,
    List.getElem?_cons_zero, gt_iff_lt, lt_self_iff_false, if_false, searchRender]
  cases hr : w.render (View.list
      { letter := w.toUpperCase req.letter, hasContent := (0 != 0), books := none }) <;>
    simp

theorem searchHandler_model_zero (w : World) (db : Database) (p : Pool) (req : SearchRequest)
    (hn : db.totalCount req.letter = 0) (hp : p.checkedOut < connectionLimit) :
    (searchHandler (w.onDatabase db) p req).listModel
      = some { letter := w.toUpperCase req.letter, hasContent := false, books := none } := by
  have hq : (w.onDatabase db).conn.totalBooksByLetter (req.letter ++ "%") = .ok (0 :: []) := by
    show Except.ok [(db.matching (req.letter ++ "%")).length] = _
    rw [show (db.matching (req.letter ++ "%")).length = 0 from hn]
  have ht := searchHandler_zero (w.onDatabase db) p req [] hq hp
  simp only [Run.listModel, ht, List.findSome?]
  rfl

/-- C7: on a database answering the page query with the title-ordered matching
rows after `offset` rows, at most the limit passed by the handler, for every
totalCount > 0 and every offset the books given to the list view are that page,
of length min(10, totalCount - offset) when offset < totalCount and 0 otherwise;
an offset beyond the last row is not an error: when the view renders, the
response is the 200 text/html page. -/
theorem search_page_length (w : World) (db : Database) (p : Pool) (req : SearchRequest)
    (hn : 0 < db.totalCount req.letter) (hp : p.checkedOut < connectionLimit) :
    ∃ books : List ListRow,
      (searchHandler (w.onDatabase db) p req).listModel
        = some { letter := w.toUpperCase req.letter, hasContent := true, books := some books }
      ∧ books.length =
          (if req.offset.getD 0 < db.totalCount req.letter
           then min 10 (db.totalCount req.letter - req.offset.getD 0) else 0)
      ∧ ∀ markup, w.render (View.list
            { letter := w.toUpperCase req.letter, hasContent := true, books := some books })
            = .ok markup →
          (searchHandler (w.onDatabase db) p req).response
            = some { status := 200, contentType := "text/html", body := .text markup } := by
  refine ⟨_, (searchHandler_pos w db p req hn hp).1, ?_, (searchHandler_pos w db p req hn hp).2⟩
  rw [Database.length_page]
  simp only [Database.totalCount, SQL_LIMIT]
  split <;> omega

/-- C7 on the sample database: two titles start with F, offset 1. -/
theorem search_page_length_witness :
    0 < sampleDatabase.totalCount "F"
    ∧ (Pool.mk 0).checkedOut < connectionLimit
    ∧ ∃ books : List ListRow,
      (searchHandler (sampleWorld.onDatabase sampleDatabase) { checkedOut := 0 }
          { letter := "F", offset := some 1 }).listModel
        = some { letter := sampleWorld.toUpperCase "F", hasContent := true, books := some books }
      ∧ books.length =
          (if 1 < sampleDatabase.totalCount "F"
           then min 10 (sampleDatabase.totalCount "F" - 1) else 0)
      ∧ ∀ markup, sampleWorld.render (View.list
            { letter := sampleWorld.toUpperCase "F", hasContent := true, books := some books })
            = .ok markup →
          (searchHandler (sampleWorld.onDatabase sampleDatabase) { checkedOut := 0 }
              { letter := "F", offset := some 1 }).response
            = some { status := 200, contentType := "text/html", body := .text markup } :=
  ⟨by decide, by decide,
    search_page_length sampleWorld sampleDatabase { checkedOut := 0 }
      { letter := "F", offset := some 1 } (by decide) (by decide)⟩

/-- C8 as written fails: on the sample database no title starts with G, the count
is 0, and the books given to the list view are absent (`undefined`), not the
empty sequence. -/
theorem search_zero_books_not_empty_sequence :
    sampleDatabase.totalCount "G" = 0
    ∧ ((searchHandler sampleWorld { checkedOut := 0 }
          { letter := "G", offset := none }).listModel.map fun m => m.books) = some none
    ∧ ((searchHandler sampleWorld { checkedOut := 0 }
          { letter := "G", offset := none }).listModel.map fun m => m.books) ≠ some (some []) := by
  decide

/-- C8 (amended): when the count query returns totalCount 0, the list view is
rendered with hasContent false and with books absent (`undefined`), and no page
query is issued. -/
theorem search_zero_books_absent (w : World) (p : Pool) (req : SearchRequest)
    (rest : List Nat)
    (hq : w.conn.totalBooksByLetter (req.letter ++ "%") = .ok (0 :: rest))
    (hp : p.checkedOut < connectionLimit) :
    (searchHandler w p req).listModel
      = some { letter := w.toUpperCase req.letter, hasContent := false, books := none }
    ∧ (searchHandler w p req).trace.all
        (fun e => !e.isQuery SQL_GET_BOOKS_BY_LETTER) = true := by
  have ht := searchHandler_zero w p req rest hq hp
  constructor
  · simp [Run.listModel, ht, List.findSome?]
  · rw [ht]; simp [Event.isQuery]; decide

/-- C8 (amended) on the sample database, where no title starts with G. -/
theorem search_zero_books_absent_witness :
    sampleWorld.conn.totalBooksByLetter ("G" ++ "%") = .ok (0 :: [])
    ∧ (Pool.mk 0).checkedOut < connectionLimit
    ∧ (searchHandler sampleWorld { checkedOut := 0 } { letter := "G", offset := some 20 }).listModel
        = some { letter := sampleWorld.toUpperCase "G", hasContent := false, books := none }
    ∧ (searchHandler sampleWorld { checkedOut := 0 } { letter := "G", offset := some 20 }).trace.all
        (fun e => !e.isQuery SQL_GET_BOOKS_BY_LETTER) = true :=
  ⟨rfl, by decide,
    search_zero_books_absent sampleWorld { checkedOut := 0 } { letter := "G", offset := some 20 }
      [] rfl (by decide)⟩

/-- C9 as written fails: on the sample database two titles start with F, and at
offset 2 the books given to the list view are the empty sequence although
totalCount is 2. -/
theorem search_empty_page_positive_total :
    sampleDatabase.totalCount "F" = 2
    ∧ ((searchHandler sampleWorld { checkedOut := 0 }
          { letter := "F", offset := some 2 }).listModel.map fun m => m.books) = some (some [])
    ∧ ¬ (((searchHandler sampleWorld { checkedOut := 0 }
            { letter := "F", offset := some 2 }).listModel.map fun m => m.books) = some (some [])
          ↔ sampleDatabase.totalCount "F" = 0) := by
  decide

/-- C9 (amended): for every request on every database, the books given to the
list view are absent or empty if and only if totalCount is 0 or the offset is at
least totalCount. -/
theorem search_no_books_iff (w : World) (db : Database) (p : Pool) (req : SearchRequest)
    (hp : p.checkedOut < connectionLimit) :
    ∃ m : ListModel,
      (searchHandler (w.onDatabase db) p req).listModel = some m
      ∧ (m.noBooks = true ↔
          (db.totalCount req.letter = 0 ∨ db.totalCount req.letter ≤ req.offset.getD 0)) := by
  rcases Nat.eq_zero_or_pos (db.totalCount req.letter) with h0 | hpos
  · exact ⟨_, searchHandler_model_zero w db p req h0 hp, by simp [ListModel.noBooks, h0]⟩
  · refine ⟨_, (searchHandler_pos w db p req hpos hp).1, ?_⟩
    have hlen : (db.matching (req.letter ++ "%")).length = db.totalCount req.letter := rfl
    simp only [ListModel.noBooks, List.isEmpty_iff, ← List.length_eq_zero]
    rw [Database.length_page, hlen]
    simp only [SQL_LIMIT]
    omega

/-- C9 (amended) on the sample database, at an offset equal to totalCount. -/
theorem search_no_books_iff_witness :
    (Pool.mk 1).checkedOut < connectionLimit
    ∧ ∃ m : ListModel,
      (searchHandler (sampleWorld.onDatabase sampleDatabase) { checkedOut := 1 }
          { letter := "F", offset := some 2 }).listModel = some m
      ∧ (m.noBooks = true ↔
          (sampleDatabase.totalCount "F" = 0 ∨ sampleDatabase.totalCount "F" ≤ 2)) :=
  ⟨by decide,
    search_no_books_iff sampleWorld sampleDatabase { checkedOut := 1 }
      { letter := "F", offset := some 2 } (by decide)⟩

/-! ## The connection is released on every path -/

/-- C10: for the search and the book handler, for every behaviour of the queries
and of the rendering (success or thrown failure), a run that acquires a
connection sends a response, acquires first, releases last, does each exactly
once, and leaves the pool with the checked-out count it found. -/
theorem handlers_release_once (w : World) (p : Pool) (sreq : SearchRequest)
    (breq : BookRequest) (hp : p.checkedOut < connectionLimit) :
    (searchHandler w p sreq).releasedOnce p ∧ (bookHandler w p breq).releasedOnce p
    ∧ (searchHandler w p sreq).pool.checkedOut = p.checkedOut
    ∧ (bookHandler w p breq).pool.checkedOut = p.checkedOut :=
  ⟨searchHandler_releasedOnce w p sreq hp, bookHandler_releasedOnce w p breq hp,
    by rw [(searchHandler_releasedOnce w p sreq hp).2.2.2.2.2],
    by rw [(bookHandler_releasedOnce w p breq hp).2.2.2.2.2]⟩

/-- C10 in a world where every query and the rendering fail, with three
connections already checked out. -/
theorem handlers_release_once_witness :
    (Pool.mk 3).checkedOut < connectionLimit
    ∧ (searchHandler failingWorld { checkedOut := 3 } { letter := "F", offset := none }).releasedOnce
        { checkedOut := 3 }
    ∧ (bookHandler failingWorld { checkedOut := 3 } { id := "42", accepts := .html }).releasedOnce
        { checkedOut := 3 }
    ∧ (searchHandler failingWorld { checkedOut := 3 }
        { letter := "F", offset := none }).pool.checkedOut = 3
    ∧ (bookHandler failingWorld { checkedOut := 3 }
        { id := "42", accepts := .html }).pool.checkedOut = 3 :=
  ⟨by decide,
    handlers_release_once failingWorld { checkedOut := 3 } { letter := "F", offset := none }
      { id := "42", accepts := .html } (by decide)⟩

end BookApp
